import Mathlib

/-!
Shallow embedding of `src/compiler.py`: a line-oriented calculator with a
lexer (`Lexer.get_all_tokens`) and a fused recursive-descent parser/evaluator
(`Interpreter.statement` and its sub-rules), over Python's dynamic value
semantics (ints, strings, booleans, None).  Python exceptions are modelled by
an explicit error type; the interpreter threads its state (token cursor and
the `GLOBAL_SCOPE` environment) explicitly, and errors carry the state so that
environment mutations committed before a failure are observable, exactly as
the in-place-mutated Python dict is.
-/

namespace Calc

/-- Token kinds, mirroring the module-level constants of `compiler.py`
(`INTEGER`, `STRING`, `ID`, ..., `EOF`). -/
inductive TokType
  | INTEGER | STRING | ID | ASSIGN | PLUS | MINUS | MUL | DIV
  | LPAREN | RPAREN | EQ | NEQ | LT | GT | IF | THEN | ELSE | EOF
deriving DecidableEq

/-- A token: `Token(type, value)` of the source, with the payload attached to
the kinds that carry one. -/
inductive Tok
  | INTEGER (n : Int)
  | STRING (s : String)
  | ID (name : String)
  | ASSIGN | PLUS | MINUS | MUL | DIV
  | LPAREN | RPAREN | EQ | NEQ | LT | GT | IF | THEN | ELSE | EOF
deriving DecidableEq

/-- `Token.type` of the source. -/
def Tok.type : Tok → TokType
  | .INTEGER _ => .INTEGER
  | .STRING _ => .STRING
  | .ID _ => .ID
  | .ASSIGN => .ASSIGN
  | .PLUS => .PLUS
  | .MINUS => .MINUS
  | .MUL => .MUL
  | .DIV => .DIV
  | .LPAREN => .LPAREN
  | .RPAREN => .RPAREN
  | .EQ => .EQ
  | .NEQ => .NEQ
  | .LT => .LT
  | .GT => .GT
  | .IF => .IF
  | .THEN => .THEN
  | .ELSE => .ELSE
  | .EOF => .EOF

/-- Python runtime values handled by the interpreter: `int`, `str`, `bool`,
and `None` (the result of a false `if` without `else`). -/
inductive Value
  | int (n : Int)
  | str (s : String)
  | bool (b : Bool)
  | none
deriving DecidableEq

/-- The Python exceptions the program can raise.  `lexErr` is the lexer's
`Exception("Error: Invalid character ...")`; `synErr` is the interpreter's
`Exception('Error: Invalid Syntax')`; `varNotDefined`, `typeErr` and
`zeroDiv` are the runtime failures (undefined variable, Python `TypeError`,
Python `ZeroDivisionError`); `indexErr` is the `IndexError` raised by
`Lexer.__init__` / `Interpreter.__init__` when indexing position 0 of an
empty text / token list; `attrErr` is the `AttributeError` from calling
`.type` on `None` when `Interpreter.peek` runs past the end; `noFuel` is the
out-of-fuel artifact of the embedding, never reached with the fuel supplied
by `interpret` and `tokenize`. -/
inductive Err
  | lexErr (c : Char)
  | synErr
  | varNotDefined (name : String)
  | typeErr
  | zeroDiv
  | indexErr
  | attrErr
  | noFuel
deriving DecidableEq

/-- The spec's error taxonomy groups undefined variables, operator type
mismatches and division by zero under "RuntimeError". -/
def Err.isRuntimeError : Err → Bool
  | .varNotDefined _ => true
  | .typeErr => true
  | .zeroDiv => true
  | _ => false

/-! ### Lexer -/

/-- Parse a run of decimal digits, as Python's `int()` on the digit string
collected by `Lexer.integer`. -/
def digitsVal (ds : List Char) : Nat :=
  ds.foldl (fun acc c => 10 * acc + (c.toNat - 48)) 0

/-- `Lexer._id`: read a maximal alphanumeric run and check it against the
reserved keywords `if`, `then`, `else`. -/
def lexIdTok (s : String) : Tok :=
  if s = "if" then .IF
  else if s = "then" then .THEN
  else if s = "else" then .ELSE
  else .ID s

/-- The scanning loop of `Lexer.get_all_tokens`, one iteration per recursive
call.  Fuel only bounds the iteration count; every iteration consumes at
least one character, so `length + 1` fuel always suffices. -/
def get_all_tokens : Nat → List Char → Except Err (List Tok)
  | 0, _ => .error .noFuel
  | _ + 1, [] => .ok [.EOF]
  | n + 1, c :: cs =>
    if c.isWhitespace then
      get_all_tokens n ((c :: cs).dropWhile Char.isWhitespace)
    else if c.isDigit then
      let ds := (c :: cs).takeWhile Char.isDigit
      match get_all_tokens n ((c :: cs).dropWhile Char.isDigit) with
      | .error e => .error e
      | .ok ts => .ok (.INTEGER (digitsVal ds) :: ts)
    else if c = '"' then
      let content := cs.takeWhile (fun x => x != '"')
      match get_all_tokens n ((cs.dropWhile (fun x => x != '"')).drop 1) with
      | .error e => .error e
      | .ok ts => .ok (.STRING (String.mk content) :: ts)
    else if c.isAlpha then
      let s := String.mk ((c :: cs).takeWhile Char.isAlphanum)
      match get_all_tokens n ((c :: cs).dropWhile Char.isAlphanum) with
      | .error e => .error e
      | .ok ts => .ok (lexIdTok s :: ts)
    else if c = '=' then
      match cs with
      | '=' :: rest =>
        match get_all_tokens n rest with
        | .error e => .error e
        | .ok ts => .ok (.EQ :: ts)
      | _ =>
        match get_all_tokens n cs with
        | .error e => .error e
        | .ok ts => .ok (.ASSIGN :: ts)
    else if c = '!' then
      match cs with
      | '=' :: rest =>
        match get_all_tokens n rest with
        | .error e => .error e
        | .ok ts => .ok (.NEQ :: ts)
      | _ => .error (.lexErr c)
    else if c = '<' then
      match get_all_tokens n cs with
      | .error e => .error e
      | .ok ts => .ok (.LT :: ts)
    else if c = '>' then
      match get_all_tokens n cs with
      | .error e => .error e
      | .ok ts => .ok (.GT :: ts)
    else if c = '+' then
      match get_all_tokens n cs with
      | .error e => .error e
      | .ok ts => .ok (.PLUS :: ts)
    else if c = '-' then
      match get_all_tokens n cs with
      | .error e => .error e
      | .ok ts => .ok (.MINUS :: ts)
    else if c = '*' then
      match get_all_tokens n cs with
      | .error e => .error e
      | .ok ts => .ok (.MUL :: ts)
    else if c = '/' then
      match get_all_tokens n cs with
      | .error e => .error e
      | .ok ts => .ok (.DIV :: ts)
    else if c = '(' then
      match get_all_tokens n cs with
      | .error e => .error e
      | .ok ts => .ok (.LPAREN :: ts)
    else if c = ')' then
      match get_all_tokens n cs with
      | .error e => .error e
      | .ok ts => .ok (.RPAREN :: ts)
    else .error (.lexErr c)

/-- `Lexer(text).get_all_tokens()`.  `Lexer.__init__` evaluates
`self.text[self.pos]` with `pos = 0`, which raises `IndexError` on an empty
text before any scanning happens. -/
def tokenize (text : String) : Except Err (List Tok) :=
  if text.data = [] then .error .indexErr
  else get_all_tokens (text.data.length + 1) text.data

/-! ### Python operator semantics -/

/-- Python treats `bool` as an integral type in arithmetic and ordering:
`True` counts as 1 and `False` as 0.  `toNum` extracts that numeric view. -/
def toNum : Value → Option Int
  | .int n => some n
  | .bool b => some (if b then 1 else 0)
  | _ => Option.none

/-- Python `+` as applied by `Interpreter.expr`: numeric addition on
ints/bools, concatenation on two strings, `TypeError` otherwise. -/
def pyAdd (v w : Value) : Except Err Value :=
  match toNum v, toNum w with
  | some a, some b => .ok (.int (a + b))
  | _, _ =>
    match v, w with
    | .str s, .str t => .ok (.str (s ++ t))
    | _, _ => .error .typeErr

/-- Python `-`: numeric only, `TypeError` otherwise. -/
def pySub (v w : Value) : Except Err Value :=
  match toNum v, toNum w with
  | some a, some b => .ok (.int (a - b))
  | _, _ => .error .typeErr

/-- Python string repetition `s * k` (non-positive `k` gives the empty
string). -/
def strRep (s : String) (k : Int) : String :=
  String.join (List.replicate k.toNat s)

/-- Python `*` as applied by `Interpreter.term`: numeric multiplication on
ints/bools, string repetition when one side is a string and the other
numeric, `TypeError` otherwise (in particular on two strings). -/
def pyMul (v w : Value) : Except Err Value :=
  match toNum v, toNum w with
  | some a, some b => .ok (.int (a * b))
  | _, _ =>
    match v, w with
    | .str s, _ =>
      match toNum w with
      | some k => .ok (.str (strRep s k))
      | _ => .error .typeErr
    | _, .str s =>
      match toNum v with
      | some k => .ok (.str (strRep s k))
      | _ => .error .typeErr
    | _, _ => .error .typeErr

/-! #### `int(a / b)`: CPython true division to binary64, then truncation

`Interpreter.term` computes `int(result / self.factor())`.  CPython's `/` on
two ints produces the correctly rounded (round-to-nearest, ties-to-even)
IEEE-754 binary64 value of the exact quotient, and `int()` truncates it
toward zero.  The model below computes that rounding exactly on the positive
rationals (with unbounded exponent: operands whose quotient would overflow
binary64 and raise `OverflowError` are outside the range any claim uses). -/

/-- Base-2 logarithm on naturals, written with explicit fuel so that it
reduces inside the kernel (`Nat.log2` itself is defined by well-founded
recursion and does not). -/
def log2fuel : Nat → Nat → Nat
  | 0, _ => 0
  | f + 1, n => if 2 ≤ n then log2fuel f (n / 2) + 1 else 0

/-- `natLog2 n` is the floor of the base-2 logarithm of `n` (0 at 0). -/
def natLog2 (n : Nat) : Nat :=
  log2fuel n n

/-- Decides `2 ^ c ≤ n / d` for positive naturals `n`, `d` and an integer
exponent `c`. -/
def pow2le (n d : Nat) (c : Int) : Bool :=
  if 0 ≤ c then decide (d * 2 ^ c.toNat ≤ n) else decide (d ≤ n * 2 ^ (-c).toNat)

/-- The floor of the base-2 logarithm of `n / d` for positive `n`, `d`:
`natLog2 n - natLog2 d` is off by at most one, and one comparison fixes
it up. -/
def log2q (n d : Nat) : Int :=
  if pow2le n d ((natLog2 n : Int) - (natLog2 d : Int)) then
    (natLog2 n : Int) - (natLog2 d : Int)
  else (natLog2 n : Int) - (natLog2 d : Int) - 1

/-- Round the positive rational `n / d` to 53 significant bits, nearest,
ties to even: returns `(m, e)` with the rounded value `m * 2 ^ (e - 52)`,
where `e` is the floor of the base-2 logarithm of `n / d`. -/
def roundMant (n d : Nat) : Nat × Int :=
  let e := log2q n d
  let s : Int := 52 - e
  let num := if 0 ≤ s then n * 2 ^ s.toNat else n
  let den := if 0 ≤ s then d else d * 2 ^ (-s).toNat
  let q := num / den
  let r := num % den
  let m :=
    if 2 * r < den then q
    else if den < 2 * r then q + 1
    else if q % 2 = 0 then q else q + 1
  (m, e)

/-- Truncation toward zero of the binary64 value nearest to `n / d`, for
positive `n`, `d`. -/
def floatDivTruncPos (n d : Nat) : Nat :=
  let p := roundMant n d
  if 52 ≤ p.2 then p.1 * 2 ^ (p.2 - 52).toNat else p.1 / 2 ^ (52 - p.2).toNat

/-- `int(a / b)` on Python ints: `ZeroDivisionError` for `b = 0`, otherwise
binary64 true division truncated toward zero, the rounding being symmetric
in the sign. -/
def pyIntTrueDiv (a b : Int) : Except Err Int :=
  if b = 0 then .error .zeroDiv
  else if a = 0 then .ok 0
  else
    let mag : Int := floatDivTruncPos a.natAbs b.natAbs
    if decide (a < 0) == decide (b < 0) then .ok mag else .ok (-mag)

/-- Python `/` followed by `int(...)` as applied by `Interpreter.term`:
numeric operands only, `TypeError` otherwise. -/
def pyDiv (v w : Value) : Except Err Value :=
  match toNum v, toNum w with
  | some a, some b =>
    match pyIntTrueDiv a b with
    | .error e => .error e
    | .ok q => .ok (.int q)
  | _, _ => .error .typeErr

/-- Python `==` on the values the program handles: numeric comparison when
both sides are int/bool, string equality on two strings, `None == None`,
and `False` (never an error) for any cross-type pair. -/
def pyEqB (v w : Value) : Bool :=
  match toNum v, toNum w with
  | some a, some b => a == b
  | _, _ =>
    match v, w with
    | .str s, .str t => s == t
    | .none, .none => true
    | _, _ => false

/-- Code-point lexicographic order on strings, as Python compares `str`
values (shorter strict prefix compares less). -/
def strLtb : List Char → List Char → Bool
  | [], [] => false
  | [], _ :: _ => true
  | _ :: _, [] => false
  | a :: as, b :: bs =>
    if a.toNat < b.toNat then true
    else if b.toNat < a.toNat then false
    else strLtb as bs

/-- Python `<` as applied by `Interpreter.comp_expr`: numeric on ints/bools,
lexicographic on two strings, `TypeError` on any other pair (in particular
a string against an int). -/
def pyLt (v w : Value) : Except Err Value :=
  match toNum v, toNum w with
  | some a, some b => .ok (.bool (decide (a < b)))
  | _, _ =>
    match v, w with
    | .str s, .str t => .ok (.bool (strLtb s.data t.data))
    | _, _ => .error .typeErr

/-- Python `>`, symmetric to `pyLt`. -/
def pyGt (v w : Value) : Except Err Value :=
  match toNum v, toNum w with
  | some a, some b => .ok (.bool (decide (b < a)))
  | _, _ =>
    match v, w with
    | .str s, .str t => .ok (.bool (strLtb t.data s.data))
    | _, _ => .error .typeErr

/-- Python truthiness, used by the `if condition:` tests of
`Interpreter.statement`: a bool is itself, an int is nonzero, a string is
nonempty, `None` is false. -/
def pyTruthy : Value → Bool
  | .bool b => b
  | .int n => n != 0
  | .str s => !(s.data = [])
  | .none => false

/-! ### Interpreter -/

/-- `GLOBAL_SCOPE`: the insertion-ordered Python dict mapping variable names
to their last assigned value. -/
abbrev Env := List (String × Value)

/-- Dict lookup `GLOBAL_SCOPE[name]` (with the `in` membership test). -/
def envGet (env : Env) (k : String) : Option Value :=
  match env.find? (fun p => p.1 == k) with
  | some p => some p.2
  | Option.none => Option.none

/-- Dict update `GLOBAL_SCOPE[name] = value`: overwrite in place if present,
append otherwise. -/
def envSet (env : Env) (k : String) (v : Value) : Env :=
  if env.any (fun p => p.1 == k) then
    env.map (fun p => if p.1 == k then (k, v) else p)
  else env ++ [(k, v)]

/-- The interpreter's cursor and memory: the fixed token list, `self.pos`,
`self.current_token`, and `self.GLOBAL_SCOPE`. -/
structure InterpSt where
  tokens : List Tok
  pos : Nat
  cur : Tok
  env : Env
deriving DecidableEq

/-- `Interpreter.eat`: advance on a matching token type (the current token
only moves while `pos` stays in range, exactly as in the source), raise
`Invalid Syntax` otherwise. -/
def eatTok (st : InterpSt) (tt : TokType) : Except Err InterpSt :=
  if st.cur.type = tt then
    let p := st.pos + 1
    .ok { st with pos := p, cur := st.tokens.getD p st.cur }
  else .error .synErr

/-- `Interpreter.peek`: the next token, if any. -/
def peekTok (st : InterpSt) : Option Tok :=
  st.tokens.get? (st.pos + 1)

mutual

/-- `Interpreter.factor`: integer and string literals, variable lookup, and
a parenthesized sub-expression — which recurses into `comp_expr` (line 229
of the source), not into `statement`. -/
def factorF : Nat → InterpSt → Except Err Value × InterpSt
  | 0, st => (.error .noFuel, st)
  | n + 1, st =>
    match st.cur with
    | .INTEGER v =>
      match eatTok st .INTEGER with
      | .error e => (.error e, st)
      | .ok st1 => (.ok (.int v), st1)
    | .STRING s =>
      match eatTok st .STRING with
      | .error e => (.error e, st)
      | .ok st1 => (.ok (.str s), st1)
    | .ID name =>
      match eatTok st .ID with
      | .error e => (.error e, st)
      | .ok st1 =>
        match envGet st1.env name with
        | some v => (.ok v, st1)
        | Option.none => (.error (.varNotDefined name), st1)
    | .LPAREN =>
      match eatTok st .LPAREN with
      | .error e => (.error e, st)
      | .ok st1 =>
        match comp_exprF n st1 with
        | (.error e, st2) => (.error e, st2)
        | (.ok v, st2) =>
          match eatTok st2 .RPAREN with
          | .error e => (.error e, st2)
          | .ok st3 => (.ok v, st3)
    | _ => (.error .synErr, st)

/-- `Interpreter.term`: a factor followed by the `(MUL | DIV) factor` loop. -/
def termF : Nat → InterpSt → Except Err Value × InterpSt
  | 0, st => (.error .noFuel, st)
  | n + 1, st =>
    match factorF n st with
    | (.error e, st1) => (.error e, st1)
    | (.ok v, st1) => termLoopF n v st1

/-- The `while self.current_token.type in (MUL, DIV)` loop of
`Interpreter.term`. -/
def termLoopF : Nat → Value → InterpSt → Except Err Value × InterpSt
  | 0, _, st => (.error .noFuel, st)
  | n + 1, acc, st =>
    if st.cur.type = .MUL then
      match eatTok st .MUL with
      | .error e => (.error e, st)
      | .ok st1 =>
        match factorF n st1 with
        | (.error e, st2) => (.error e, st2)
        | (.ok w, st2) =>
          match pyMul acc w with
          | .error e => (.error e, st2)
          | .ok r => termLoopF n r st2
    else if st.cur.type = .DIV then
      match eatTok st .DIV with
      | .error e => (.error e, st)
      | .ok st1 =>
        match factorF n st1 with
        | (.error e, st2) => (.error e, st2)
        | (.ok w, st2) =>
          match pyDiv acc w with
          | .error e => (.error e, st2)
          | .ok r => termLoopF n r st2
    else (.ok acc, st)

/-- `Interpreter.expr`: a term followed by the `(PLUS | MINUS) term` loop. -/
def exprF : Nat → InterpSt → Except Err Value × InterpSt
  | 0, st => (.error .noFuel, st)
  | n + 1, st =>
    match termF n st with
    | (.error e, st1) => (.error e, st1)
    | (.ok v, st1) => exprLoopF n v st1

/-- The `while self.current_token.type in (PLUS, MINUS)` loop of
`Interpreter.expr`. -/
def exprLoopF : Nat → Value → InterpSt → Except Err Value × InterpSt
  | 0, _, st => (.error .noFuel, st)
  | n + 1, acc, st =>
    if st.cur.type = .PLUS then
      match eatTok st .PLUS with
      | .error e => (.error e, st)
      | .ok st1 =>
        match termF n st1 with
        | (.error e, st2) => (.error e, st2)
        | (.ok w, st2) =>
          match pyAdd acc w with
          | .error e => (.error e, st2)
          | .ok r => exprLoopF n r st2
    else if st.cur.type = .MINUS then
      match eatTok st .MINUS with
      | .error e => (.error e, st)
      | .ok st1 =>
        match termF n st1 with
        | (.error e, st2) => (.error e, st2)
        | (.ok w, st2) =>
          match pySub acc w with
          | .error e => (.error e, st2)
          | .ok r => exprLoopF n r st2
    else (.ok acc, st)

/-- `Interpreter.comp_expr`: an expr optionally followed by exactly one
`==`, `!=`, `<` or `>` and a second expr (a single `if`, not a loop, in the
source — comparisons do not chain). -/
def comp_exprF : Nat → InterpSt → Except Err Value × InterpSt
  | 0, st => (.error .noFuel, st)
  | n + 1, st =>
    match exprF n st with
    | (.error e, st1) => (.error e, st1)
    | (.ok v, st1) =>
      if st1.cur.type = .EQ then
        match eatTok st1 .EQ with
        | .error e => (.error e, st1)
        | .ok st2 =>
          match exprF n st2 with
          | (.error e, st3) => (.error e, st3)
          | (.ok w, st3) => (.ok (.bool (pyEqB v w)), st3)
      else if st1.cur.type = .NEQ then
        match eatTok st1 .NEQ with
        | .error e => (.error e, st1)
        | .ok st2 =>
          match exprF n st2 with
          | (.error e, st3) => (.error e, st3)
          | (.ok w, st3) => (.ok (.bool (!pyEqB v w)), st3)
      else if st1.cur.type = .LT then
        match eatTok st1 .LT with
        | .error e => (.error e, st1)
        | .ok st2 =>
          match exprF n st2 with
          | (.error e, st3) => (.error e, st3)
          | (.ok w, st3) =>
            match pyLt v w with
            | .error e => (.error e, st3)
            | .ok r => (.ok r, st3)
      else if st1.cur.type = .GT then
        match eatTok st1 .GT with
        | .error e => (.error e, st1)
        | .ok st2 =>
          match exprF n st2 with
          | (.error e, st3) => (.error e, st3)
          | (.ok w, st3) =>
            match pyGt v w with
            | .error e => (.error e, st3)
            | .ok r => (.ok r, st3)
      else (.ok v, st1)

/-- `Interpreter.statement`: assignment (recognized by the one-token
lookahead `current is ID and peek() is ASSIGN`), `if ... then ... else ...`
(note: both branch statements are evaluated before the condition selects a
result), or a bare `comp_expr`. -/
def statementF : Nat → InterpSt → Except Err Value × InterpSt
  | 0, st => (.error .noFuel, st)
  | n + 1, st =>
    match st.cur with
    | .ID name =>
      match peekTok st with
      | Option.none => (.error .attrErr, st)
      | some t =>
        if t.type = .ASSIGN then
          match eatTok st .ID with
          | .error e => (.error e, st)
          | .ok st1 =>
            match eatTok st1 .ASSIGN with
            | .error e => (.error e, st1)
            | .ok st2 =>
              match statementF n st2 with
              | (.error e, st3) => (.error e, st3)
              | (.ok v, st3) => (.ok v, { st3 with env := envSet st3.env name v })
        else comp_exprF n st
    | .IF =>
      match eatTok st .IF with
      | .error e => (.error e, st)
      | .ok st1 =>
        match comp_exprF n st1 with
        | (.error e, st2) => (.error e, st2)
        | (.ok cond, st2) =>
          match eatTok st2 .THEN with
          | .error e => (.error e, st2)
          | .ok st3 =>
            match statementF n st3 with
            | (.error e, st4) => (.error e, st4)
            | (.ok tRes, st4) =>
              if st4.cur.type = .ELSE then
                match eatTok st4 .ELSE with
                | .error e => (.error e, st4)
                | .ok st5 =>
                  match statementF n st5 with
                  | (.error e, st6) => (.error e, st6)
                  | (.ok fRes, st6) =>
                    if pyTruthy cond then (.ok tRes, st6) else (.ok fRes, st6)
              else
                if pyTruthy cond then (.ok tRes, st4) else (.ok .none, st4)
    | _ => comp_exprF n st

end

/-- `Interpreter(tokens)` followed by one `interpreter.statement()` call:
returns the outcome together with the final `GLOBAL_SCOPE`
(`Interpreter.__init__` indexes `tokens[0]`, so an empty token list raises
`IndexError`).  Every grammar rule either consumes a token or descends at
most five rule levels before doing so, so the supplied fuel is never
exhausted. -/
def interpret (toks : List Tok) (env : Env) : Except Err Value × Env :=
  match toks with
  | [] => (.error .indexErr, env)
  | t :: _ =>
    let res := statementF (6 * (toks.length + 2)) ⟨toks, 0, t, env⟩
    (res.1, res.2.env)

/-- One iteration of the REPL body of `main`: lex the line and evaluate the
resulting tokens against the session environment. -/
def run (line : String) (env : Env) : Except Err Value × Env :=
  match tokenize line with
  | .error e => (.error e, env)
  | .ok toks => interpret toks env

instance {α β : Type} [DecidableEq α] [DecidableEq β] : DecidableEq (Except α β) :=
  fun x y =>
    match x, y with
    | .error a, .error b =>
      match decEq a b with
      | isTrue h => isTrue (by rw [h])
      | isFalse h => isFalse (by intro hc; cases hc; exact h rfl)
    | .ok a, .ok b =>
      match decEq a b with
      | isTrue h => isTrue (by rw [h])
      | isFalse h => isFalse (by intro hc; cases hc; exact h rfl)
    | .error _, .ok _ => isFalse (by intro hc; cases hc)
    | .ok _, .error _ => isFalse (by intro hc; cases hc)

/-! ### Helper lemmas: the fuel-based base-2 logarithm and exact division -/

theorem log2fuel_bounds (f : Nat) : ∀ n : Nat, 0 < n → n ≤ f →
    2 ^ log2fuel f n ≤ n ∧ n < 2 ^ (log2fuel f n + 1) := by
  induction f with
  | zero => intro n h1 h2; omega
  | succ f ih =>
    intro n h1 h2
    by_cases h : 2 ≤ n
    · have hrec : log2fuel (f + 1) n = log2fuel f (n / 2) + 1 := by
        simp [log2fuel, h]
      have hhalf := ih (n / 2) (by omega) (by omega)
      rcases hhalf with ⟨hl, hr⟩
      rw [hrec]
      constructor
      · calc 2 ^ (log2fuel f (n / 2) + 1) = 2 ^ log2fuel f (n / 2) * 2 := by ring
        _ ≤ (n / 2) * 2 := Nat.mul_le_mul_right 2 hl
        _ ≤ n := by omega
      · calc n < (n / 2) * 2 + 2 := by omega
        _ ≤ 2 ^ (log2fuel f (n / 2) + 1) * 2 := by
            have : (n / 2) + 1 ≤ 2 ^ (log2fuel f (n / 2) + 1) := hr
            omega
        _ = 2 ^ (log2fuel f (n / 2) + 1 + 1) := by ring
    · have hn1 : n = 1 := by omega
      subst hn1
      simp [log2fuel]

theorem natLog2_le {n : Nat} (h : 0 < n) : 2 ^ natLog2 n ≤ n :=
  (log2fuel_bounds n n h le_rfl).1

theorem natLog2_lt {n : Nat} (h : 0 < n) : n < 2 ^ (natLog2 n + 1) :=
  (log2fuel_bounds n n h le_rfl).2

theorem log2q_cases (k d : Nat) (hk : 0 < k) (hd : 0 < d) (h53 : k ≤ 2 ^ 53) :
    log2q (k * d) d ≤ 52 ∨ (log2q (k * d) d = 53 ∧ k = 2 ^ 53) := by
  have hn : 0 < k * d := Nat.mul_pos hk hd
  have h1 : 2 ^ natLog2 (k * d) ≤ k * d := natLog2_le hn
  have h2 : d < 2 ^ (natLog2 d + 1) := natLog2_lt hd
  have key : natLog2 (k * d) ≤ 53 + natLog2 d := by
    have hkd : k * d ≤ 2 ^ 53 * d := Nat.mul_le_mul_right d h53
    have chain : 2 ^ natLog2 (k * d) < 2 ^ (54 + natLog2 d) := by
      calc 2 ^ natLog2 (k * d) ≤ k * d := h1
      _ ≤ 2 ^ 53 * d := hkd
      _ < 2 ^ 53 * 2 ^ (natLog2 d + 1) := by
          exact mul_lt_mul_of_pos_left h2 (by positivity)
      _ = 2 ^ (54 + natLog2 d) := by
          rw [← pow_add]
          congr 1
          omega
    have : natLog2 (k * d) < 54 + natLog2 d :=
      (Nat.pow_lt_pow_iff_right (by norm_num)).mp chain
    omega
  unfold log2q
  have hcast : (natLog2 (k * d) : Int) ≤ 53 + (natLog2 d : Int) := by exact_mod_cast key
  by_cases hB : pow2le (k * d) d ((natLog2 (k * d) : Int) - (natLog2 d : Int)) = true
  · rw [if_pos hB]
    by_cases hc52 : (natLog2 (k * d) : Int) - (natLog2 d : Int) ≤ 52
    · left; exact hc52
    · have hc : (natLog2 (k * d) : Int) - (natLog2 d : Int) = 53 := by omega
      right
      refine ⟨hc, ?_⟩
      rw [hc] at hB
      unfold pow2le at hB
      rw [if_pos (by norm_num)] at hB
      have h53nat : ((53 : Int)).toNat = 53 := rfl
      rw [h53nat] at hB
      have hdk : d * 2 ^ 53 ≤ k * d := of_decide_eq_true hB
      have h2k : 2 ^ 53 ≤ k := by
        have : 2 ^ 53 * d ≤ k * d := by linarith [hdk]
        exact Nat.le_of_mul_le_mul_right this hd
      omega
  · rw [if_neg hB]
    left; omega

theorem floatDivTruncPos_exact (k d : Nat) (hk : 0 < k) (hd : 0 < d)
    (h53 : k ≤ 2 ^ 53) : floatDivTruncPos (k * d) d = k := by
  rcases log2q_cases k d hk hd h53 with he | ⟨he, hk53⟩
  · -- the exponent is at most 52, so the scale factor 2 ^ (52 - e) is a
    -- nonnegative power and the scaled quotient is exact
    have hs : (0 : Int) ≤ 52 - log2q (k * d) d := by omega
    unfold floatDivTruncPos roundMant
    simp only [hs, if_true, if_pos hs]
    set t : Nat := ((52 : Int) - log2q (k * d) d).toNat with ht
    have hnum : k * d * 2 ^ t = (k * 2 ^ t) * d := by ring
    have hqv : k * d * 2 ^ t / d = k * 2 ^ t := by
      rw [hnum]; exact Nat.mul_div_cancel _ hd
    have hrv : k * d * 2 ^ t % d = 0 := by
      rw [hnum]; exact Nat.mul_mod_left _ _
    rw [hqv, hrv]
    rw [if_pos (show 2 * 0 < d by omega)]
    by_cases h52 : (52 : Int) ≤ log2q (k * d) d
    · have he52 : log2q (k * d) d = 52 := by omega
      have ht0 : t = 0 := by rw [ht, he52]; rfl
      rw [if_pos h52, ht0, he52]
      norm_num
    · rw [if_neg h52]
      exact Nat.mul_div_cancel _ (by positivity)
  · -- the quotient is exactly 2 ^ 53: the exponent is 53, the scale factor
    -- is 2 ^ (-1), and the mantissa comes out as 2 ^ 52 with no remainder
    subst hk53
    unfold floatDivTruncPos roundMant
    rw [he]
    have hs : ¬ ((0 : Int) ≤ 52 - 53) := by norm_num
    simp only [if_neg hs]
    have hden : d * 2 ^ ((-(52 - 53 : Int)).toNat) = d * 2 := by norm_num
    have hnum2 : 2 ^ 53 * d = 2 ^ 52 * (d * 2) := by ring
    rw [hden, hnum2]
    have hq : 2 ^ 52 * (d * 2) / (d * 2) = 2 ^ 52 := Nat.mul_div_cancel _ (by omega)
    have hr : 2 ^ 52 * (d * 2) % (d * 2) = 0 := Nat.mul_mod_left _ _
    rw [hq, hr]
    rw [if_pos (show 2 * 0 < d * 2 by omega)]
    rw [if_pos (show (52 : Int) ≤ 53 by norm_num)]
    norm_num

theorem pyIntTrueDiv_exact (a b q : Int) (hb : b ≠ 0) (hq : b * q = a)
    (h53 : q.natAbs ≤ 2 ^ 53) : pyIntTrueDiv a b = .ok q := by
  unfold pyIntTrueDiv
  rw [if_neg hb]
  by_cases hq0 : q = 0
  · have ha : a = 0 := by rw [← hq, hq0, mul_zero]
    rw [if_pos ha, hq0]
  · have ha : a ≠ 0 := by
      rw [← hq]; exact mul_ne_zero hb hq0
    rw [if_neg ha]
    have hnat : a.natAbs = q.natAbs * b.natAbs := by
      rw [← hq, Int.natAbs_mul, Nat.mul_comm]
    have hmag : floatDivTruncPos a.natAbs b.natAbs = q.natAbs := by
      rw [hnat]
      exact floatDivTruncPos_exact q.natAbs b.natAbs
        (Int.natAbs_pos.mpr hq0) (Int.natAbs_pos.mpr hb) h53
    rw [hmag]
    rcases lt_or_gt_of_ne hq0 with hqneg | hqpos
    · have habs : ((q.natAbs : Int)) = -q := by
        rw [Int.ofNat_natAbs_of_nonpos (le_of_lt hqneg)]
      rcases lt_or_gt_of_ne hb with hbneg | hbpos
      · have hapos : 0 < a := by rw [← hq]; exact mul_pos_of_neg_of_neg hbneg hqneg
        have h1 : decide (a < 0) = false := by simp [not_lt_of_gt hapos]
        have h2 : decide (b < 0) = true := by simp [hbneg]
        rw [h1, h2]
        simp [habs]
      · have haneg : a < 0 := by rw [← hq]; exact mul_neg_of_pos_of_neg hbpos hqneg
        have h1 : decide (a < 0) = true := by simp [haneg]
        have h2 : decide (b < 0) = false := by simp [not_lt_of_gt hbpos]
        rw [h1, h2]
        simp [habs]
    · have habs : ((q.natAbs : Int)) = q := Int.natAbs_of_nonneg (le_of_lt hqpos)
      rcases lt_or_gt_of_ne hb with hbneg | hbpos
      · have haneg : a < 0 := by rw [← hq]; exact mul_neg_of_neg_of_pos hbneg hqpos
        have h1 : decide (a < 0) = true := by simp [haneg]
        have h2 : decide (b < 0) = true := by simp [hbneg]
        rw [h1, h2]
        simp [habs]
      · have hapos : 0 < a := by rw [← hq]; exact mul_pos hbpos hqpos
        have h1 : decide (a < 0) = false := by simp [not_lt_of_gt hapos]
        have h2 : decide (b < 0) = false := by simp [not_lt_of_gt hbpos]
        rw [h1, h2]
        simp [habs]

/-! ### Claim theorems -/

/-- C1 counterexample: evaluating the line `"a" + "b"` does not raise — the
evaluator returns the concatenated string `ab` (Python's `+` concatenates
two `str` values), so the claim that `+` raises RuntimeError whenever an
operand is not an integer is false. -/
theorem string_plus_string_concatenates :
    run "\"a\" + \"b\"" [] = (.ok (.str "ab"), []) := by decide

/-- C1 (amended): `+` on two string operands concatenates them; `+` on an
integer and a string (either order) raises RuntimeError (a Python
`TypeError`). -/
theorem plus_mixed_raises_strings_concatenate (s t : String) (n : Int) (env : Env) :
    interpret [.STRING s, .PLUS, .STRING t, .EOF] env = (.ok (.str (s ++ t)), env) ∧
    interpret [.INTEGER n, .PLUS, .STRING s, .EOF] env = (.error .typeErr, env) ∧
    interpret [.STRING s, .PLUS, .INTEGER n, .EOF] env = (.error .typeErr, env) ∧
    Err.typeErr.isRuntimeError = true :=
  ⟨rfl, rfl, rfl, rfl⟩

/-- C2 counterexample: evaluating the line `"a" == 1` returns the boolean
`False` rather than raising — Python compares values of different types as
simply unequal — so the claim that a mixed string/integer `==` raises
RuntimeError is false. -/
theorem string_int_eq_returns_false :
    run "\"a\" == 1" [] = (.ok (.bool false), []) := by decide

/-- C2 (amended): `==` between a string and an integer (either order)
returns the boolean false, and `!=` returns true; no error is raised and no
coercion happens — cross-type values are simply unequal. -/
theorem mixed_eq_neq_no_error (s : String) (n : Int) (env : Env) :
    interpret [.STRING s, .EQ, .INTEGER n, .EOF] env = (.ok (.bool false), env) ∧
    interpret [.INTEGER n, .EQ, .STRING s, .EOF] env = (.ok (.bool false), env) ∧
    interpret [.STRING s, .NEQ, .INTEGER n, .EOF] env = (.ok (.bool true), env) ∧
    interpret [.INTEGER n, .NEQ, .STRING s, .EOF] env = (.ok (.bool true), env) :=
  ⟨rfl, rfl, rfl, rfl⟩

/-- C3 counterexample: evaluating the line `"a" < "b"` returns the boolean
`True` — Python orders two strings lexicographically — so the claim that
`<` raises RuntimeError whenever either operand is a string is false. -/
theorem string_string_lt_compares :
    run "\"a\" < \"b\"" [] = (.ok (.bool true), []) := by decide

/-- C3 (amended): `<` and `>` raise RuntimeError (a Python `TypeError`)
when one operand is a string and the other an integer, but two strings are
compared lexicographically by code point and two integers numerically. -/
theorem lt_gt_mixed_raises_strings_compare (s t : String) (n : Int) (env : Env) :
    interpret [.STRING s, .LT, .INTEGER n, .EOF] env = (.error .typeErr, env) ∧
    interpret [.INTEGER n, .LT, .STRING s, .EOF] env = (.error .typeErr, env) ∧
    interpret [.STRING s, .GT, .INTEGER n, .EOF] env = (.error .typeErr, env) ∧
    interpret [.INTEGER n, .GT, .STRING s, .EOF] env = (.error .typeErr, env) ∧
    interpret [.STRING s, .LT, .STRING t, .EOF] env
      = (.ok (.bool (strLtb s.data t.data)), env) ∧
    interpret [.STRING s, .GT, .STRING t, .EOF] env
      = (.ok (.bool (strLtb t.data s.data)), env) :=
  ⟨rfl, rfl, rfl, rfl, rfl, rfl⟩

/-- C4 counterexample: dividing the 64-bit signed integer 4611686018427387905
(that is 2 ^ 62 + 1) by 1 yields 4611686018427387904 (= 2 ^ 62), not the
exact truncated quotient 4611686018427387905: the quotient passes through
binary64 floating point, so the claim of exactness for every pair of 64-bit
signed integers is false. -/
theorem div_large_operands_inexact :
    interpret [.INTEGER 4611686018427387905, .DIV, .INTEGER 1, .EOF] []
      = (.ok (.int 4611686018427387904), []) ∧
    (4611686018427387904 : Int) ≠ 4611686018427387905 := by
  constructor
  · decide
  · decide

/-- C4 (amended): for integers `a`, `b` with `b ≠ 0`, `a / b` yields the
truncation toward zero of the binary64 nearest-even rounding of the real
quotient; whenever the exact quotient is an integer `q` with
`natAbs q ≤ 2 ^ 53` the result is exactly `q`, and `-7 / 2` evaluates to
`-3` (truncation toward zero), but exactness does not extend to every pair
of 64-bit signed integers. -/
theorem div_truncated_exact_small_quotients (a b q : Int) (env : Env)
    (hb : b ≠ 0) (hq : b * q = a) (h53 : q.natAbs ≤ 2 ^ 53) :
    interpret [.INTEGER a, .DIV, .INTEGER b, .EOF] env = (.ok (.int q), env) ∧
    interpret [.INTEGER (-7), .DIV, .INTEGER 2, .EOF] env = (.ok (.int (-3)), env) := by
  constructor
  · have h := pyIntTrueDiv_exact a b q hb hq h53
    simp [interpret, statementF, comp_exprF, exprF, exprLoopF, termF, termLoopF, factorF,
          eatTok, peekTok, pyDiv, toNum, Tok.type, h]
  · rfl

/-- C4 witness: the amended division theorem applied at `6 / 3 = 2`. -/
theorem div_truncated_exact_small_quotients_witness :
    (3 : Int) ≠ 0 ∧ (3 : Int) * 2 = 6 ∧ (2 : Int).natAbs ≤ 2 ^ 53 ∧
    interpret [.INTEGER 6, .DIV, .INTEGER 3, .EOF] [] = (.ok (.int 2), []) :=
  ⟨by decide, by decide, by decide,
    (div_truncated_exact_small_quotients 6 3 2 [] (by decide) (by decide) (by decide)).1⟩

/-- C5 counterexample: the line `(if 1 > 0 then 2 else 3) + 1` raises
SyntaxError (`factor` recurses into `comp_expr`, which cannot start with
`if`), so the claim that a parenthesized sub-expression is parsed as a full
statement — and that this line evaluates successfully — is false. -/
theorem paren_if_raises_invalid_syntax :
    run "(if 1 > 0 then 2 else 3) + 1" [] = (.error .synErr, []) := by decide

/-- C5 (amended): a parenthesized sub-expression is parsed and evaluated as
a comparison (`comp_expr`), not as a full statement: `(1 > 0) + 1`
evaluates successfully (to 2, the boolean counting as 1), while an
`if ... then ... else ...` inside parentheses raises SyntaxError. -/
theorem paren_recurses_into_comp_expr (env : Env) :
    run "(1 > 0) + 1" [] = (.ok (.int 2), []) ∧
    interpret [.LPAREN, .IF, .INTEGER 1, .GT, .INTEGER 0, .THEN, .INTEGER 2,
               .ELSE, .INTEGER 3, .RPAREN, .PLUS, .INTEGER 1, .EOF] env
      = (.error .synErr, env) := by
  constructor
  · decide
  · simp [interpret, statementF, comp_exprF, exprF, exprLoopF, termF, termLoopF, factorF,
          eatTok, peekTok, Tok.type]

/-- C6 counterexample: on the empty line, `tokenize` does not succeed with
an `EndOfInput`-only token sequence — `Lexer.__init__` indexes character 0
of the empty text and fails (`IndexError`) — so the claim that tokenize
succeeds on every empty-or-whitespace line is false. -/
theorem tokenize_empty_line_index_error :
    tokenize "" = .error .indexErr := by decide

/-- C6 (amended): every nonempty line of only whitespace characters lexes
to exactly the one-token sequence `[EndOfInput]`, and evaluating that
sequence raises SyntaxError (`factor` has nothing to consume); the empty
line instead makes the lexer constructor fail with an index error. -/
theorem whitespace_line_lexes_to_eof_only (s : String) (env : Env)
    (hne : s.data ≠ []) (hws : ∀ c ∈ s.data, c.isWhitespace) :
    tokenize s = .ok [.EOF] ∧
    interpret [.EOF] env = (.error .synErr, env) := by
  constructor
  · unfold tokenize
    rw [if_neg hne]
    match hd : s.data, hne with
    | c :: cs, _ =>
      have hwc : c.isWhitespace := by
        apply hws; rw [hd]; exact List.mem_cons_self c cs
      have hdrop : (c :: cs).dropWhile Char.isWhitespace = [] := by
        rw [List.dropWhile_eq_nil_iff]
        intro x hx
        apply hws; rw [hd]; exact hx
      simp only [List.length_cons, get_all_tokens, hwc, if_true, hdrop]
  · rfl

/-- C6 witness: the amended whitespace-line theorem applied to a
three-space line. -/
theorem whitespace_line_lexes_to_eof_only_witness :
    ("   " : String).data ≠ [] ∧ (∀ c ∈ ("   " : String).data, c.isWhitespace) ∧
    tokenize "   " = .ok [.EOF] :=
  ⟨by decide, by decide,
    (whitespace_line_lexes_to_eof_only "   " [] (by decide) (by decide)).1⟩

/-- C7: for every integer `a`, evaluating the division `a / 0` raises
RuntimeError (Python's `ZeroDivisionError`), and the environment after the
failed evaluation is exactly the environment from before it. -/
theorem div_by_zero_raises_env_unchanged (a : Int) (env : Env) :
    interpret [.INTEGER a, .DIV, .INTEGER 0, .EOF] env = (.error .zeroDiv, env) ∧
    Err.zeroDiv.isRuntimeError = true :=
  ⟨rfl, rfl⟩

/-- C8: assignments persist across lines within one session — evaluating
`x = 5` from the empty environment yields the environment mapping `x` to 5,
and evaluating `x + 1` against that environment yields the integer 6. -/
theorem assignment_persists_across_lines :
    run "x = 5" [] = (.ok (.int 5), [("x", .int 5)]) ∧
    run "x + 1" [("x", .int 5)] = (.ok (.int 6), [("x", .int 5)]) := by
  constructor
  · decide
  · decide

/-- C9: both branches of an `if` statement are evaluated regardless of the
condition: `if 1 > 2 then x = 5` (condition false, no else) returns no
value yet still commits `x = 5` to the environment — also shown at token
level for every assigned integer `v` and starting environment — and an
error inside the not-selected `else` branch of `if 1 > 0 then 3 else 1 / 0`
still aborts the line. -/
theorem if_branches_always_evaluated (v : Int) (env : Env) :
    run "if 1 > 2 then x = 5" [] = (.ok .none, [("x", .int 5)]) ∧
    interpret [.IF, .INTEGER 1, .GT, .INTEGER 2, .THEN, .ID "x", .ASSIGN,
               .INTEGER v, .EOF] env = (.ok .none, envSet env "x" (.int v)) ∧
    run "if 1 > 0 then 3 else 1 / 0" [] = (.error .zeroDiv, []) := by
  refine ⟨?_, ?_, ?_⟩
  · simp [run, tokenize, get_all_tokens, lexIdTok, digitsVal, envSet, interpret, statementF,
          comp_exprF, exprF, exprLoopF, termF, termLoopF, factorF, eatTok, peekTok, pyGt,
          toNum, pyTruthy, Tok.type]
  · simp [interpret, statementF, comp_exprF, exprF, exprLoopF, termF, termLoopF, factorF,
          eatTok, peekTok, pyGt, toNum, pyTruthy, Tok.type]
  · simp [run, tokenize, get_all_tokens, lexIdTok, digitsVal, interpret, statementF,
          comp_exprF, exprF, exprLoopF, termF, termLoopF, factorF, eatTok, peekTok, pyGt,
          pyDiv, pyIntTrueDiv, toNum, pyTruthy, Tok.type]

/-- C10: evaluation stops after the first complete statement without
requiring the `EndOfInput` token: `1 + 2 3` lexes to a sequence with a
trailing `INTEGER 3` before `EOF`, yet evaluates to 3, and `1 == 2 == 3`
evaluates to the boolean false (the value of the leading single
comparison), the trailing tokens being silently ignored instead of raising
SyntaxError. -/
theorem trailing_tokens_silently_ignored :
    tokenize "1 + 2 3" = .ok [.INTEGER 1, .PLUS, .INTEGER 2, .INTEGER 3, .EOF] ∧
    run "1 + 2 3" [] = (.ok (.int 3), []) ∧
    run "1 == 2 == 3" [] = (.ok (.bool false), []) := by
  refine ⟨?_, ?_, ?_⟩
  · decide
  · decide
  · decide

end Calc
